import Mathlib

/-!
Verification development for the `electron-dialog-provider` repository
(`src/index.js`).

The library is a thin wrapper over an Electron host: five public
operations (`showInformation`, `showWarning`, `showConfirmation`,
`showError`, `openFile`) construct dialog requests, delegate to
host-provided services (`dialog.showMessageBox`, `dialog.showOpenDialog`,
`fs.access`) and invoke a completion callback.

Shallow embedding: every host service is a field of a `Host` record, and
every operation is a pure Lean function returning the ordered list of
observable effects (a `List DialogEvent`).  Completion callbacks are
modelled as functions returning the events they in turn produce; the
theorems instantiate them with observers (`msgObs`, `fileObs`) that
record the arguments the caller's callback received as a
`DialogEvent.callbackCall` event.
-/

/-- Request record passed to the host's `dialog.showMessageBox`
(src/index.js lines 53-60). -/
structure MessageBoxRequest where
  type : String
  title : String
  message : String
  detail : String
  buttons : List String
  cancelId : Nat
  defaultId : Nat
deriving Repr, DecidableEq

/-- Result resolved by the host's message box: the index of the clicked
button (Electron's `result.response`). -/
structure MessageBoxResult where
  response : Nat
deriving Repr, DecidableEq

/-- One entry of the `filters` list of an open-file request
(src/index.js line 221). -/
structure FileFilter where
  name : String
  extensions : List String
deriving Repr, DecidableEq

/-- Request record passed to the host's `dialog.showOpenDialog`
(src/index.js lines 217-221). -/
structure OpenDialogRequest where
  title : String
  properties : List String
  defaultPath : String
  filters : List FileFilter
deriving Repr, DecidableEq

/-- Result resolved by the host's open-file picker: the selected paths
(Electron's `result.filePaths`). -/
structure OpenDialogResult where
  filePaths : List String
deriving Repr, DecidableEq

/-- Value handed to a completion callback as its second argument: either
a message-box result or a selected file path. -/
inductive CbValue where
  | dialog (r : MessageBoxResult)
  | filePath (p : String)
deriving Repr, DecidableEq

/-- Observable effects of the wrapper, in order of occurrence.
`callbackCall err res` records an invocation of the caller's completion
callback with first argument `err` (`none` models JS `null`) and second
argument `res` (`none` models JS `undefined`). -/
inductive DialogEvent where
  | dockBounce (kind : String)
  | focusApp
  | showMessageBox (req : MessageBoxRequest)
  | relaunch
  | quit
  | showOpenDialog (req : OpenDialogRequest)
  | fsAccess (p : String)
  | callbackCall (err : Option String) (res : Option CbValue)
deriving Repr, DecidableEq

/-- The external Electron host: application handle (`app`), dialog
services and filesystem probe.  `nameGlobal` is the value of the bare
identifier `name` that src/index.js line 211 reads from the ambient JS
environment when defaulting `initialFolder` (`app.getPath(name)`);
`eol` is `os.EOL`. -/
structure Host where
  appName : String
  isMacOS : Bool
  nameGlobal : String
  eol : String
  getPath : String → String
  messageBox : MessageBoxRequest → Except String MessageBoxResult
  openDialog : OpenDialogRequest → Except String OpenDialogResult
  fsAccess : String → Option String

/-- Node `path.posix.normalize`, component-resolution step: skip empty
and `.` segments, resolve `..` against the (reversed) accumulator,
keeping leading `..` segments when the path is relative
(`allowAboveRoot`). -/
def normStep (allowAboveRoot : Bool) (acc : List String) (comp : String) : List String :=
  if comp = "" ∨ comp = "." then acc
  else if comp = ".." then
    match acc with
    | [] => if allowAboveRoot then [".."] else []
    | prev :: rest => if prev = ".." then ".." :: prev :: rest else rest
  else comp :: acc

/-- Splits the character list of a path at every `/`, accumulating the
current segment in reverse; yields the list of separator-delimited
segments (empty segments included), as Node's separator scan does. -/
def splitSlashAux : List Char → List Char → List String
  | [], cur => [String.mk cur.reverse]
  | c :: cs, cur =>
    if c = '/' then String.mk cur.reverse :: splitSlashAux cs []
    else splitSlashAux cs (c :: cur)

/-- Segments of a path between `/` separators. -/
def splitSlash (s : String) : List String := splitSlashAux s.data []

/-- True when the path starts with the separator, i.e. is absolute. -/
def headIsSlash (s : String) : Bool :=
  match s.data with
  | [] => false
  | c :: _ => c = '/'

/-- True when the path ends with the separator. -/
def lastIsSlash (s : String) : Bool :=
  match s.data.reverse with
  | [] => false
  | c :: _ => c = '/'

/-- Joins path segments with the `/` separator. -/
def joinSlash : List String → String
  | [] => ""
  | [x] => x
  | x :: y :: xs => x ++ "/" ++ joinSlash (y :: xs)

/-- Node `path.posix.normalize` (the `path.normalize` call of
src/index.js line 236; the win32 variant differs only in separator
style, which the spec sets aside): resolves `.` and `..` segments and
collapses repeated separators, preserving absoluteness and a trailing
separator. -/
def pathNormalize (p : String) : String :=
  if p = "" then "."
  else
    let isAbs := headIsSlash p
    let trailingSep := lastIsSlash p
    let comps := ((splitSlash p).foldl (normStep !isAbs) []).reverse
    let body := joinSlash comps
    if body = "" then
      if isAbs then "/" else if trailingSep then "./" else "."
    else
      let body2 := if trailingSep then body ++ "/" else body
      if isAbs then "/" ++ body2 else body2

/-- Message-box request constructed by `createMessageDialog`
(src/index.js lines 49-60): JS default parameters `title =
appProductName` and `message = title` are modelled by `Option.getD`;
note the source sets the request's `message` field to `title` and passes
the message text as `detail`, with `cancelId` and `defaultId` both 0. -/
def messageDialogRequest (host : Host) (titleArg messageArg : Option String)
    (buttonList : List String) (type : String) : MessageBoxRequest :=
  let title := titleArg.getD host.appName
  let message := messageArg.getD title
  { type := type
  , title := title
  , message := title
  , detail := message
  , buttons := buttonList
  , cancelId := 0
  , defaultId := 0 }

/-- Wrapper for `dialog.showMessageBox` (src/index.js lines 49-74):
shows the message box, then on resolution calls `callback(null, result)`
and on rejection calls `callback(error)`; the callback's two JS call
shapes are captured by `Except`. -/
def createMessageDialog (host : Host) (titleArg messageArg : Option String)
    (buttonList : List String) (type : String)
    (callback : Except String MessageBoxResult → List DialogEvent) : List DialogEvent :=
  let req := messageDialogRequest host titleArg messageArg buttonList type
  DialogEvent.showMessageBox req ::
    match host.messageBox req with
    | Except.ok result => callback (Except.ok result)
    | Except.error e => callback (Except.error e)

/-- File-existence probe (src/index.js lines 85-102): `fs.access` with
`F_OK`, then `callback(error)` on failure and `callback(null)` on
success. -/
def checkFileExists (host : Host) (filePath : String)
    (callback : Option String → List DialogEvent) : List DialogEvent :=
  DialogEvent.fsAccess filePath ::
    match host.fsAccess filePath with
    | some error => callback (some error)
    | none => callback none

/-- Embedding of `showInformation` (src/index.js lines 114-119). -/
def showInformation (host : Host) (titleArg messageArg : Option String)
    (callback : Except String MessageBoxResult → List DialogEvent) : List DialogEvent :=
  createMessageDialog host titleArg messageArg ["Dismiss"] "info" callback

/-- Embedding of `showWarning` (src/index.js lines 129-134). -/
def showWarning (host : Host) (messageArg : Option String)
    (callback : Except String MessageBoxResult → List DialogEvent) : List DialogEvent :=
  createMessageDialog host (some "Warning") messageArg ["Dismiss"] "warning" callback

/-- Embedding of `showConfirmation` (src/index.js lines 145-153): focuses the app,
then shows a question dialog with buttons No, Yes. -/
def showConfirmation (host : Host) (titleArg messageArg : Option String)
    (callback : Except String MessageBoxResult → List DialogEvent) : List DialogEvent :=
  DialogEvent.focusApp ::
    createMessageDialog host titleArg messageArg ["No", "Yes"] "question" callback

/-- Embedding of `showError` (src/index.js lines 163-198): bounces the dock icon on
macOS, focuses the app, shows the error dialog, and in its result
handler relaunches then quits on response 1, quits on response 2, and
finally calls `callback(null, result)`. -/
def showError (host : Host) (messageArg : Option String)
    (callback : Except String MessageBoxResult → List DialogEvent) : List DialogEvent :=
  (if host.isMacOS then [DialogEvent.dockBounce "critical"] else []) ++
  DialogEvent.focusApp ::
    createMessageDialog host (some "Error") messageArg ["Dismiss", "Restart", "Quit"] "error"
      (fun res =>
        match res with
        | Except.error e => callback (Except.error e)
        | Except.ok result =>
          (if result.response = 1 then [DialogEvent.relaunch, DialogEvent.quit]
           else if result.response = 2 then [DialogEvent.quit]
           else []) ++ callback (Except.ok result))

/-- Open-file picker request constructed by `openFile` (src/index.js
lines 211-221), with the JS default parameters made explicit:
`dialogTitle = appProductName`, `fileExtensionList = ['*']`,
`initialFolder = app.getPath(name)`. -/
def openFileRequest (host : Host) (dialogTitleArg : Option String)
    (fileExtensionListArg : Option (List String)) (initialFolderArg : Option String) :
    OpenDialogRequest :=
  { title := dialogTitleArg.getD host.appName
  , properties := ["openFile", "showHiddenFiles", "treatPackageAsDirectory"]
  , defaultPath := initialFolderArg.getD (host.getPath host.nameGlobal)
  , filters := [{ name := "Filter", extensions := fileExtensionListArg.getD ["*"] }] }

/-- Embedding of `openFile` (src/index.js lines 211-260): shows the picker; on an
empty selection fails with `Error('file selection empty')`; otherwise
normalizes the first path, probes its existence, and on probe failure
shows a warning dialog whose own callback forwards the probe error to
the original caller; on probe success calls `callback(null, filePath)`. -/
def openFile (host : Host) (dialogTitleArg : Option String)
    (fileExtensionListArg : Option (List String)) (initialFolderArg : Option String)
    (callback : Except String String → List DialogEvent) : List DialogEvent :=
  let req := openFileRequest host dialogTitleArg fileExtensionListArg initialFolderArg
  DialogEvent.showOpenDialog req ::
    match host.openDialog req with
    | Except.ok result =>
      match result.filePaths with
      | [] => callback (Except.error "file selection empty")
      | firstPath :: _ =>
        let filePath := pathNormalize firstPath
        checkFileExists host filePath (fun error =>
          match error with
          | some e =>
            showWarning host (some ("File not found." ++ host.eol))
              (fun _ => callback (Except.error e))
          | none => callback (Except.ok filePath))
    | Except.error e => callback (Except.error e)

/-- Observer callback for the message-dialog operations: records what
the caller's completion callback received. -/
def msgObs : Except String MessageBoxResult → List DialogEvent
  | Except.ok r => [DialogEvent.callbackCall none (some (CbValue.dialog r))]
  | Except.error e => [DialogEvent.callbackCall (some e) none]

/-- Observer callback for `openFile`: records what the caller's
completion callback received. -/
def fileObs : Except String String → List DialogEvent
  | Except.ok p => [DialogEvent.callbackCall none (some (CbValue.filePath p))]
  | Except.error e => [DialogEvent.callbackCall (some e) none]

/-- Recognizes a relaunch event. -/
def isRelaunch : DialogEvent → Bool
  | DialogEvent.relaunch => true
  | _ => false

/-- Recognizes a quit event. -/
def isQuit : DialogEvent → Bool
  | DialogEvent.quit => true
  | _ => false

/-- Recognizes a completion-callback invocation. -/
def isCbEvent : DialogEvent → Bool
  | DialogEvent.callbackCall _ _ => true
  | _ => false

/-- Recognizes a filesystem-probe event. -/
def isFsEvent : DialogEvent → Bool
  | DialogEvent.fsAccess _ => true
  | _ => false

/-- Number of relaunches issued to the host in a trace. -/
def relaunchCount (t : List DialogEvent) : Nat := (t.filter isRelaunch).length

/-- Number of quits issued to the host in a trace. -/
def quitCount (t : List DialogEvent) : Nat := (t.filter isQuit).length

/-- Number of completion-callback invocations in a trace. -/
def cbCount (t : List DialogEvent) : Nat := (t.filter isCbEvent).length

/-- Message-box requests issued to the host in a trace, in order. -/
def msgBoxRequests (t : List DialogEvent) : List MessageBoxRequest :=
  t.filterMap fun e =>
    match e with
    | DialogEvent.showMessageBox req => some req
    | _ => none

/-- Button indexes delivered to a completion callback in a trace. -/
def clickedIndexes (t : List DialogEvent) : List Nat :=
  t.filterMap fun e =>
    match e with
    | DialogEvent.callbackCall _ (some (CbValue.dialog r)) => some r.response
    | _ => none

/-- True when a completion-callback invocation occurs at or after the
first quit event of the trace. -/
def callbackAfterQuit (t : List DialogEvent) : Bool :=
  (t.dropWhile (fun e => !(e == DialogEvent.quit))).any isCbEvent

/-- Test host whose message box always resolves with button index 1
(the Restart button of `showError`). -/
def hostRestart : Host where
  appName := "App"
  isMacOS := false
  nameGlobal := "nm"
  eol := "\n"
  getPath := fun _ => "/home/user"
  messageBox := fun _ => Except.ok ⟨1⟩
  openDialog := fun _ => Except.error "unused"
  fsAccess := fun _ => none

/-- Test host whose message box always resolves with button index 2
(the Quit button of `showError`). -/
def hostQuit : Host where
  appName := "App"
  isMacOS := false
  nameGlobal := "nm"
  eol := "\n"
  getPath := fun _ => "/home/user"
  messageBox := fun _ => Except.ok ⟨2⟩
  openDialog := fun _ => Except.error "unused"
  fsAccess := fun _ => none

/-- Trace of `showError` when the host resolves the error dialog with
result `r`: optional dock bounce, focus, the message box, then the
response-dependent relaunch/quit actions, then the completion
callback. -/
theorem showError_trace (host : Host) (messageArg : Option String) (r : MessageBoxResult)
    (h : host.messageBox (messageDialogRequest host (some "Error") messageArg
      ["Dismiss", "Restart", "Quit"] "error") = Except.ok r) :
    showError host messageArg msgObs =
      (if host.isMacOS then [DialogEvent.dockBounce "critical"] else []) ++
      DialogEvent.focusApp ::
      DialogEvent.showMessageBox (messageDialogRequest host (some "Error") messageArg
        ["Dismiss", "Restart", "Quit"] "error") ::
      ((if r.response = 1 then [DialogEvent.relaunch, DialogEvent.quit]
        else if r.response = 2 then [DialogEvent.quit] else []) ++
       [DialogEvent.callbackCall none (some (CbValue.dialog r))]) := by
  simp only [showError, createMessageDialog, h, msgObs]

/-- C1: for every call to `showError`, when the host resolves the
dialog, a clicked button index of 1 triggers exactly one relaunch and
exactly one quit of the host application; an index of 2 triggers exactly
one quit and no relaunch; an index of 0 triggers neither (and for
index 1 the full trace shows relaunch immediately followed by quit). -/
theorem showError_button_actions (host : Host) (messageArg : Option String) (r : Nat)
    (h : host.messageBox (messageDialogRequest host (some "Error") messageArg
      ["Dismiss", "Restart", "Quit"] "error") = Except.ok ⟨r⟩) :
    (r = 1 → relaunchCount (showError host messageArg msgObs) = 1 ∧
      quitCount (showError host messageArg msgObs) = 1 ∧
      showError host messageArg msgObs =
        (if host.isMacOS then [DialogEvent.dockBounce "critical"] else []) ++
        [DialogEvent.focusApp,
         DialogEvent.showMessageBox (messageDialogRequest host (some "Error") messageArg
           ["Dismiss", "Restart", "Quit"] "error"),
         DialogEvent.relaunch, DialogEvent.quit,
         DialogEvent.callbackCall none (some (CbValue.dialog ⟨1⟩))]) ∧
    (r = 2 → relaunchCount (showError host messageArg msgObs) = 0 ∧
      quitCount (showError host messageArg msgObs) = 1) ∧
    (r = 0 → relaunchCount (showError host messageArg msgObs) = 0 ∧
      quitCount (showError host messageArg msgObs) = 0) := by
  rw [showError_trace host messageArg ⟨r⟩ h]
  refine ⟨fun hr => ?_, fun hr => ?_, fun hr => ?_⟩ <;> subst hr <;>
    cases hM : host.isMacOS <;>
    simp [hM, relaunchCount, quitCount, isRelaunch, isQuit, List.filter_append]

/-- C1 witness: with a host that resolves the error dialog with button
index 1, exactly one relaunch and one quit are issued. -/
theorem showError_button_actions_witness :
    relaunchCount (showError hostRestart (some "boom") msgObs) = 1 ∧
    quitCount (showError hostRestart (some "boom") msgObs) = 1 :=
  ⟨((showError_button_actions hostRestart (some "boom") 1 rfl).1 rfl).1,
   ((showError_button_actions hostRestart (some "boom") 1 rfl).1 rfl).2.1⟩

/-- C2 counterexample: the claim that no completion callback is
observable after the terminal actions fails on the code — with a host
resolving the error dialog with button index 1 (Restart), `showError`
issues relaunch and quit and then still invokes the completion callback
with `(null, result)`, so a callback invocation occurs after the quit
event in the trace. -/
theorem showError_callback_after_quit_cex :
    showError hostRestart (some "m") msgObs =
      [DialogEvent.focusApp,
       DialogEvent.showMessageBox (messageDialogRequest hostRestart (some "Error") (some "m")
         ["Dismiss", "Restart", "Quit"] "error"),
       DialogEvent.relaunch, DialogEvent.quit,
       DialogEvent.callbackCall none (some (CbValue.dialog ⟨1⟩))] ∧
    callbackAfterQuit (showError hostRestart (some "m") msgObs) = true := by
  constructor <;> rfl

/-- C2 (amended): for `showError`, the relaunch and quit are issued only
after the host confirms the button click — nothing before the message
box event is a relaunch, quit, or callback — and the completion callback
is then invoked exactly once, with `(null, result)`, after the terminal
actions are issued (the source invokes `callback(null, result)` after
`app.relaunch()`/`app.quit()`, so a final callback invocation is part of
the trace rather than absent). -/
theorem showError_terminal_after_click (host : Host) (messageArg : Option String) (r : Nat)
    (h : host.messageBox (messageDialogRequest host (some "Error") messageArg
      ["Dismiss", "Restart", "Quit"] "error") = Except.ok ⟨r⟩) :
    (∃ pre,
      showError host messageArg msgObs =
        pre ++ DialogEvent.showMessageBox (messageDialogRequest host (some "Error") messageArg
          ["Dismiss", "Restart", "Quit"] "error") ::
        ((if r = 1 then [DialogEvent.relaunch, DialogEvent.quit]
          else if r = 2 then [DialogEvent.quit] else []) ++
         [DialogEvent.callbackCall none (some (CbValue.dialog ⟨r⟩))]) ∧
      relaunchCount pre = 0 ∧ quitCount pre = 0 ∧ cbCount pre = 0) ∧
    cbCount (showError host messageArg msgObs) = 1 := by
  have ht := showError_trace host messageArg ⟨r⟩ h
  have hbr : List.filter isCbEvent
      (if r = 1 then [DialogEvent.relaunch, DialogEvent.quit]
       else if r = 2 then [DialogEvent.quit] else []) = [] := by
    by_cases h1 : r = 1 <;> by_cases h2 : r = 2 <;> simp [h1, h2, isCbEvent]
  constructor
  · refine ⟨(if host.isMacOS then [DialogEvent.dockBounce "critical"] else []) ++
      [DialogEvent.focusApp], ?_, ?_, ?_, ?_⟩
    · rw [ht]; simp
    · cases hM : host.isMacOS <;>
        simp [hM, relaunchCount, isRelaunch, List.filter_append]
    · cases hM : host.isMacOS <;>
        simp [hM, quitCount, isQuit, List.filter_append]
    · cases hM : host.isMacOS <;>
        simp [hM, cbCount, isCbEvent, List.filter_append]
  · rw [ht]
    cases hM : host.isMacOS <;>
      simp [hM, cbCount, isCbEvent, List.filter_append, hbr]

/-- C2 witness: with a host resolving the error dialog with index 1,
the completion callback fires exactly once. -/
theorem showError_terminal_after_click_witness :
    cbCount (showError hostRestart (some "m") msgObs) = 1 :=
  (showError_terminal_after_click hostRestart (some "m") 1 rfl).2

/-- Test host whose picker returns a single path whose existence probe
fails. -/
def hostPickMissing : Host where
  appName := "App"
  isMacOS := false
  nameGlobal := "nm"
  eol := "\n"
  getPath := fun _ => "/home/user"
  messageBox := fun _ => Except.ok ⟨0⟩
  openDialog := fun _ => Except.ok ⟨["x"]⟩
  fsAccess := fun _ => some "ENOENT"

/-- Test host whose picker resolves with an empty selection. -/
def hostCancel : Host where
  appName := "App"
  isMacOS := false
  nameGlobal := "nm"
  eol := "\n"
  getPath := fun _ => "/home/user"
  messageBox := fun _ => Except.ok ⟨0⟩
  openDialog := fun _ => Except.ok ⟨[]⟩
  fsAccess := fun _ => none

/-- Test host whose picker returns the unnormalized path
`./a/../b.txt` and whose existence probe succeeds. -/
def hostPickOk : Host where
  appName := "App"
  isMacOS := false
  nameGlobal := "nm"
  eol := "\n"
  getPath := fun _ => "/home/user"
  messageBox := fun _ => Except.ok ⟨0⟩
  openDialog := fun _ => Except.ok ⟨["./a/../b.txt"]⟩
  fsAccess := fun _ => none

/-- C3: when the existence probe fails on the picked path, `openFile`
shows a warning dialog titled "Warning" whose message text (carried in
the request's `detail` field, per the source's title/detail layout) is
"File not found." followed by the platform end-of-line, and the original
completion callback fires exactly once, after that warning dialog has
resolved, with the probe error as its first argument. -/
theorem openFile_probe_failure_warning (host : Host)
    (tA : Option String) (xA : Option (List String)) (fA : Option String)
    (p e : String) (rest : List String)
    (hOpen : host.openDialog (openFileRequest host tA xA fA) = Except.ok ⟨p :: rest⟩)
    (hAcc : host.fsAccess (pathNormalize p) = some e) :
    openFile host tA xA fA fileObs =
      [DialogEvent.showOpenDialog (openFileRequest host tA xA fA),
       DialogEvent.fsAccess (pathNormalize p),
       DialogEvent.showMessageBox (messageDialogRequest host (some "Warning")
         (some ("File not found." ++ host.eol)) ["Dismiss"] "warning"),
       DialogEvent.callbackCall (some e) none] ∧
    (messageDialogRequest host (some "Warning")
      (some ("File not found." ++ host.eol)) ["Dismiss"] "warning").title = "Warning" ∧
    (messageDialogRequest host (some "Warning")
      (some ("File not found." ++ host.eol)) ["Dismiss"] "warning").detail
      = "File not found." ++ host.eol ∧
    cbCount (openFile host tA xA fA fileObs) = 1 := by
  have htrace : openFile host tA xA fA fileObs =
      [DialogEvent.showOpenDialog (openFileRequest host tA xA fA),
       DialogEvent.fsAccess (pathNormalize p),
       DialogEvent.showMessageBox (messageDialogRequest host (some "Warning")
         (some ("File not found." ++ host.eol)) ["Dismiss"] "warning"),
       DialogEvent.callbackCall (some e) none] := by
    simp only [openFile, checkFileExists, showWarning, createMessageDialog, hOpen, hAcc]
    cases hW : host.messageBox (messageDialogRequest host (some "Warning")
      (some ("File not found." ++ host.eol)) ["Dismiss"] "warning") <;> simp [fileObs]
  refine ⟨htrace, rfl, rfl, ?_⟩
  rw [htrace]; rfl

/-- C3 witness: with a host whose probe fails, the `openFile` callback
fires exactly once. -/
theorem openFile_probe_failure_warning_witness :
    cbCount (openFile hostPickMissing none none none fileObs) = 1 :=
  (openFile_probe_failure_warning hostPickMissing none none none "x" "ENOENT" [] rfl rfl).2.2.2

/-- C4: when the picker resolves with an empty path list, `openFile`
invokes the completion callback with the `file selection empty` error
and no result, and the filesystem existence probe is never invoked. -/
theorem openFile_empty_selection (host : Host)
    (tA : Option String) (xA : Option (List String)) (fA : Option String)
    (hOpen : host.openDialog (openFileRequest host tA xA fA) = Except.ok ⟨[]⟩) :
    openFile host tA xA fA fileObs =
      [DialogEvent.showOpenDialog (openFileRequest host tA xA fA),
       DialogEvent.callbackCall (some "file selection empty") none] ∧
    List.filter isFsEvent (openFile host tA xA fA fileObs) = [] := by
  have htrace : openFile host tA xA fA fileObs =
      [DialogEvent.showOpenDialog (openFileRequest host tA xA fA),
       DialogEvent.callbackCall (some "file selection empty") none] := by
    simp only [openFile, hOpen]
    simp [fileObs]
  exact ⟨htrace, by rw [htrace]; rfl⟩

/-- C4 witness: with a host resolving an empty selection, the trace is
the picker request followed by the error callback alone. -/
theorem openFile_empty_selection_witness :
    openFile hostCancel none none none fileObs =
      [DialogEvent.showOpenDialog (openFileRequest hostCancel none none none),
       DialogEvent.callbackCall (some "file selection empty") none] :=
  (openFile_empty_selection hostCancel none none none rfl).1

/-- C5: when the picker resolves with a non-empty path list, `openFile`
normalizes the first returned path before probing it — in particular
`./a/../b.txt` normalizes to `b.txt` — and on probe success the
callback receives `(null, normalizedPath)`. -/
theorem openFile_normalizes_first_path (host : Host)
    (tA : Option String) (xA : Option (List String)) (fA : Option String)
    (p : String) (rest : List String)
    (hOpen : host.openDialog (openFileRequest host tA xA fA) = Except.ok ⟨p :: rest⟩)
    (hAcc : host.fsAccess (pathNormalize p) = none) :
    pathNormalize "./a/../b.txt" = "b.txt" ∧
    openFile host tA xA fA fileObs =
      [DialogEvent.showOpenDialog (openFileRequest host tA xA fA),
       DialogEvent.fsAccess (pathNormalize p),
       DialogEvent.callbackCall none (some (CbValue.filePath (pathNormalize p)))] := by
  refine ⟨by decide, ?_⟩
  simp only [openFile, checkFileExists, hOpen, hAcc]
  simp [fileObs]

/-- C5 witness: the concrete normalization fact obtained through the
theorem at a host picking `./a/../b.txt`. -/
theorem openFile_normalizes_first_path_witness :
    pathNormalize "./a/../b.txt" = "b.txt" :=
  (openFile_normalizes_first_path hostPickOk none none none "./a/../b.txt" [] rfl rfl).1

/-- Message-box requests issued by `showError` when the host resolves
the dialog: exactly the one error-dialog request. -/
theorem showError_msgBoxRequests_ok (host : Host) (eA : Option String) (r : MessageBoxResult)
    (hE : host.messageBox (messageDialogRequest host (some "Error") eA
      ["Dismiss", "Restart", "Quit"] "error") = Except.ok r) :
    msgBoxRequests (showError host eA msgObs) =
      [messageDialogRequest host (some "Error") eA ["Dismiss", "Restart", "Quit"] "error"] := by
  rw [showError_trace host eA r hE]
  cases hM : host.isMacOS <;>
    by_cases h1 : r.response = 1 <;> by_cases h2 : r.response = 2 <;>
      simp [hM, h1, h2, msgBoxRequests, List.filterMap_append]

/-- Message-box requests issued by `showError` when the host rejects
the dialog: still exactly the one error-dialog request. -/
theorem showError_msgBoxRequests_err (host : Host) (eA : Option String) (e : String)
    (hE : host.messageBox (messageDialogRequest host (some "Error") eA
      ["Dismiss", "Restart", "Quit"] "error") = Except.error e) :
    msgBoxRequests (showError host eA msgObs) =
      [messageDialogRequest host (some "Error") eA ["Dismiss", "Restart", "Quit"] "error"] := by
  cases hM : host.isMacOS <;>
    simp [showError, createMessageDialog, msgBoxRequests, msgObs, hE, hM, List.filterMap_append]

/-- Clicked index delivered by `showError` when the host resolves the
dialog with result `r`. -/
theorem showError_clickedIndexes_ok (host : Host) (eA : Option String) (r : MessageBoxResult)
    (hE : host.messageBox (messageDialogRequest host (some "Error") eA
      ["Dismiss", "Restart", "Quit"] "error") = Except.ok r) :
    clickedIndexes (showError host eA msgObs) = [r.response] := by
  rw [showError_trace host eA r hE]
  cases hM : host.isMacOS <;>
    by_cases h1 : r.response = 1 <;> by_cases h2 : r.response = 2 <;>
      simp [hM, h1, h2, clickedIndexes, List.filterMap_append]

/-- No clicked index is delivered by `showError` when the host rejects
the dialog. -/
theorem showError_clickedIndexes_err (host : Host) (eA : Option String) (e : String)
    (hE : host.messageBox (messageDialogRequest host (some "Error") eA
      ["Dismiss", "Restart", "Quit"] "error") = Except.error e) :
    clickedIndexes (showError host eA msgObs) = [] := by
  cases hM : host.isMacOS <;>
    simp [showError, createMessageDialog, clickedIndexes, msgObs, hE, hM, List.filterMap_append]

/-- Test host honoring Electron's message-box contract: the resolved
index is a valid index into the request's button list (it rejects a
request with no buttons and otherwise clicks the first one). -/
def hostSafeClick : Host where
  appName := "App"
  isMacOS := false
  nameGlobal := "nm"
  eol := "\n"
  getPath := fun _ => "/home/user"
  messageBox := fun req =>
    match req.buttons with
    | [] => Except.error "no buttons"
    | _ :: _ => Except.ok ⟨0⟩
  openDialog := fun _ => Except.error "unused"
  fsAccess := fun _ => none

/-- C6: every message-box request constructed by the four
message-dialog operations is the single request of its trace and sets
both `cancelId` and `defaultId` to 0 with the buttons exactly the
supplied label list (so index 0 is the first-listed label); and when
the host honors Electron's contract of resolving with an index within
the request's button list, every index delivered to a caller is within
bounds of that operation's label list. -/
theorem messageDialog_index_invariant (host : Host)
    (tA mA wA eA : Option String)
    (hb : ∀ req r, host.messageBox req = Except.ok r → r.response < req.buttons.length) :
    msgBoxRequests (showInformation host tA mA msgObs)
      = [messageDialogRequest host tA mA ["Dismiss"] "info"] ∧
    msgBoxRequests (showWarning host wA msgObs)
      = [messageDialogRequest host (some "Warning") wA ["Dismiss"] "warning"] ∧
    msgBoxRequests (showConfirmation host tA mA msgObs)
      = [messageDialogRequest host tA mA ["No", "Yes"] "question"] ∧
    msgBoxRequests (showError host eA msgObs)
      = [messageDialogRequest host (some "Error") eA ["Dismiss", "Restart", "Quit"] "error"] ∧
    (∀ bl ty, (messageDialogRequest host tA mA bl ty).cancelId = 0 ∧
      (messageDialogRequest host tA mA bl ty).defaultId = 0 ∧
      (messageDialogRequest host tA mA bl ty).buttons = bl) ∧
    (∀ i ∈ clickedIndexes (showInformation host tA mA msgObs), i < 1) ∧
    (∀ i ∈ clickedIndexes (showWarning host wA msgObs), i < 1) ∧
    (∀ i ∈ clickedIndexes (showConfirmation host tA mA msgObs), i < 2) ∧
    (∀ i ∈ clickedIndexes (showError host eA msgObs), i < 3) := by
  refine ⟨?_, ?_, ?_, ?_, fun bl ty => ⟨rfl, rfl, rfl⟩, ?_, ?_, ?_, ?_⟩
  · cases hI : host.messageBox (messageDialogRequest host tA mA ["Dismiss"] "info") <;>
      simp [showInformation, createMessageDialog, msgBoxRequests, msgObs, hI]
  · cases hW : host.messageBox
        (messageDialogRequest host (some "Warning") wA ["Dismiss"] "warning") <;>
      simp [showWarning, createMessageDialog, msgBoxRequests, msgObs, hW]
  · cases hC : host.messageBox (messageDialogRequest host tA mA ["No", "Yes"] "question") <;>
      simp [showConfirmation, createMessageDialog, msgBoxRequests, msgObs, hC]
  · cases hE : host.messageBox (messageDialogRequest host (some "Error") eA
        ["Dismiss", "Restart", "Quit"] "error")
    · exact showError_msgBoxRequests_err host eA _ hE
    · exact showError_msgBoxRequests_ok host eA _ hE
  · intro i hi
    cases hI : host.messageBox (messageDialogRequest host tA mA ["Dismiss"] "info")
    · simp [showInformation, createMessageDialog, clickedIndexes, msgObs, hI] at hi
    · simp [showInformation, createMessageDialog, clickedIndexes, msgObs, hI] at hi
      subst hi
      simpa [messageDialogRequest] using hb _ _ hI
  · intro i hi
    cases hW : host.messageBox
        (messageDialogRequest host (some "Warning") wA ["Dismiss"] "warning")
    · simp [showWarning, createMessageDialog, clickedIndexes, msgObs, hW] at hi
    · simp [showWarning, createMessageDialog, clickedIndexes, msgObs, hW] at hi
      subst hi
      simpa [messageDialogRequest] using hb _ _ hW
  · intro i hi
    cases hC : host.messageBox (messageDialogRequest host tA mA ["No", "Yes"] "question")
    · simp [showConfirmation, createMessageDialog, clickedIndexes, msgObs, hC] at hi
    · simp [showConfirmation, createMessageDialog, clickedIndexes, msgObs, hC] at hi
      subst hi
      simpa [messageDialogRequest] using hb _ _ hC
  · intro i hi
    cases hE : host.messageBox (messageDialogRequest host (some "Error") eA
        ["Dismiss", "Restart", "Quit"] "error")
    · rw [showError_clickedIndexes_err host eA _ hE] at hi
      simp at hi
    · rw [showError_clickedIndexes_ok host eA _ hE] at hi
      simp at hi
      subst hi
      simpa [messageDialogRequest] using hb _ _ hE

/-- C6 witness: the invariant applied to a contract-honoring host gives
the cancel/default/button facts for a concrete information dialog. -/
theorem messageDialog_index_invariant_witness :
    (messageDialogRequest hostSafeClick (some "T") (some "M") ["Dismiss"] "info").cancelId = 0 ∧
    (messageDialogRequest hostSafeClick (some "T") (some "M") ["Dismiss"] "info").defaultId = 0 ∧
    (messageDialogRequest hostSafeClick (some "T") (some "M") ["Dismiss"] "info").buttons
      = ["Dismiss"] :=
  (messageDialog_index_invariant hostSafeClick (some "T") (some "M") (some "W") (some "E")
    (by
      intro req r hr
      simp only [hostSafeClick] at hr
      cases hbl : req.buttons
      · rw [hbl] at hr
        exact absurd hr (by simp)
      · rw [hbl] at hr
        simp at hr
        subst hr
        simp [hbl])).2.2.2.2.1 ["Dismiss"] "info"

/-- Test host whose message box always resolves with button index 0
(the user clicks the first button). -/
def hostClickFirst : Host where
  appName := "TestApp"
  isMacOS := false
  nameGlobal := "nm"
  eol := "\n"
  getPath := fun _ => "/home/user"
  messageBox := fun _ => Except.ok ⟨0⟩
  openDialog := fun _ => Except.error "unused"
  fsAccess := fun _ => none

/-- C7: `showInformation("Update", "A new version is available")` shows
a host message box with title "Update", the single button "Dismiss" and
kind "info", and clicking that button resolves the completion callback
with `(null, {clickedIndex: 0})` (the result's `response` field is the
clicked index). -/
theorem showInformation_update_scenario :
    showInformation hostClickFirst (some "Update") (some "A new version is available") msgObs =
      [DialogEvent.showMessageBox
        { type := "info", title := "Update", message := "Update"
        , detail := "A new version is available", buttons := ["Dismiss"]
        , cancelId := 0, defaultId := 0 },
       DialogEvent.callbackCall none (some (CbValue.dialog ⟨0⟩))] := rfl

/-- C8: with all optional parameters omitted, the `openFile` picker
request carries the host application's display name as dialog title, the
wildcard extension filter, and as initial folder the host's path lookup
applied to the ambient `name` value (a host-defined base path; the
lookup key comes from the free identifier `name` of src/index.js
line 211). -/
theorem openFile_default_request (host : Host) :
    (∃ rest, openFile host none none none fileObs =
      DialogEvent.showOpenDialog (openFileRequest host none none none) :: rest) ∧
    (openFileRequest host none none none).title = host.appName ∧
    (openFileRequest host none none none).filters
      = [{ name := "Filter", extensions := ["*"] }] ∧
    (openFileRequest host none none none).defaultPath = host.getPath host.nameGlobal ∧
    (openFileRequest host none none none).properties
      = ["openFile", "showHiddenFiles", "treatPackageAsDirectory"] :=
  ⟨⟨_, rfl⟩, rfl, rfl, rfl, rfl⟩

/-- C9: for every call to `showConfirmation`, the app-focus request
precedes the dialog in the trace, and the dialog request carries the
ordered buttons No, Yes and kind "question". -/
theorem showConfirmation_focus_first (host : Host) (tA mA : Option String) :
    (∃ rest, showConfirmation host tA mA msgObs =
      DialogEvent.focusApp ::
      DialogEvent.showMessageBox (messageDialogRequest host tA mA ["No", "Yes"] "question") ::
      rest) ∧
    (messageDialogRequest host tA mA ["No", "Yes"] "question").buttons = ["No", "Yes"] ∧
    (messageDialogRequest host tA mA ["No", "Yes"] "question").type = "question" :=
  ⟨⟨_, rfl⟩, rfl, rfl⟩

/-- C10: every message dialog shown by the four operations sets the host
request's `message` field to the dialog title and carries the
caller-supplied message text in the `detail` field instead. -/
theorem messageDialog_message_in_detail (host : Host) (tA : Option String) (m w em : String) :
    msgBoxRequests (showInformation host tA (some m) msgObs)
      = [messageDialogRequest host tA (some m) ["Dismiss"] "info"] ∧
    (messageDialogRequest host tA (some m) ["Dismiss"] "info").message
      = (messageDialogRequest host tA (some m) ["Dismiss"] "info").title ∧
    (messageDialogRequest host tA (some m) ["Dismiss"] "info").detail = m ∧
    msgBoxRequests (showWarning host (some w) msgObs)
      = [messageDialogRequest host (some "Warning") (some w) ["Dismiss"] "warning"] ∧
    (messageDialogRequest host (some "Warning") (some w) ["Dismiss"] "warning").message
      = (messageDialogRequest host (some "Warning") (some w) ["Dismiss"] "warning").title ∧
    (messageDialogRequest host (some "Warning") (some w) ["Dismiss"] "warning").detail = w ∧
    msgBoxRequests (showConfirmation host tA (some m) msgObs)
      = [messageDialogRequest host tA (some m) ["No", "Yes"] "question"] ∧
    (messageDialogRequest host tA (some m) ["No", "Yes"] "question").message
      = (messageDialogRequest host tA (some m) ["No", "Yes"] "question").title ∧
    (messageDialogRequest host tA (some m) ["No", "Yes"] "question").detail = m ∧
    msgBoxRequests (showError host (some em) msgObs)
      = [messageDialogRequest host (some "Error") (some em)
          ["Dismiss", "Restart", "Quit"] "error"] ∧
    (messageDialogRequest host (some "Error") (some em)
      ["Dismiss", "Restart", "Quit"] "error").message
      = (messageDialogRequest host (some "Error") (some em)
          ["Dismiss", "Restart", "Quit"] "error").title ∧
    (messageDialogRequest host (some "Error") (some em)
      ["Dismiss", "Restart", "Quit"] "error").detail = em := by
  refine ⟨?_, rfl, rfl, ?_, rfl, rfl, ?_, rfl, rfl, ?_, rfl, rfl⟩
  · cases hI : host.messageBox (messageDialogRequest host tA (some m) ["Dismiss"] "info") <;>
      simp [showInformation, createMessageDialog, msgBoxRequests, msgObs, hI]
  · cases hW : host.messageBox
        (messageDialogRequest host (some "Warning") (some w) ["Dismiss"] "warning") <;>
      simp [showWarning, createMessageDialog, msgBoxRequests, msgObs, hW]
  · cases hC : host.messageBox
        (messageDialogRequest host tA (some m) ["No", "Yes"] "question") <;>
      simp [showConfirmation, createMessageDialog, msgBoxRequests, msgObs, hC]
  · cases hE : host.messageBox (messageDialogRequest host (some "Error") (some em)
        ["Dismiss", "Restart", "Quit"] "error")
    · exact showError_msgBoxRequests_err host (some em) _ hE
    · exact showError_msgBoxRequests_ok host (some em) _ hE
